import Mathlib

/-
  Verification development for the IGraalVM Jupyter kernel installer
  (jupyter/IGraalVM/install.py).

  The installer is a single forward pass: parse CLI flags, resolve the
  GraalVM home, run the maven build, optionally run native-image, register
  the kernel directory, and write the patched kernel.json descriptor.
  Below we embed the pure content of that pass: the alias and name tables,
  the timeout flag resolution, the install-location default, the GraalVM
  home resolution with its soft exit, the subprocess exit-code
  propagation, the descriptor construction, and the sorted-key JSON
  serialization of the descriptor.
-/

namespace GraalVMInstall

/-- Association-list lookup, modelling Python dict read access
(dict.get / dict getitem) for string-keyed dicts. -/
def alistGet {α : Type} : List (String × α) → String → Option α
  | [], _ => none
  | p :: rest, k => if p.1 = k then some p.2 else alistGet rest k

/-- Membership test on an association list, modelling the Python
expression `key in dict`. -/
def dictContains : List (String × String) → String → Bool
  | [], _ => false
  | p :: rest, k => decide (p.1 = k) || dictContains rest k

/-- Python dict assignment d[k] = v: overwrite in place when the key is
present (keeping its position, as CPython dicts do), append otherwise. -/
def dictSet (d : List (String × String)) (k v : String) : List (String × String) :=
  if dictContains d k then
    d.map (fun p => if p.1 = k then (k, v) else p)
  else
    d ++ [(k, v)]

/-- Folding dict assignment over a list of pairs, modelling the loop
`for k, v in overrides.items(): base[k] = v`. -/
def dictMerge (base : List (String × String)) (overrides : List (String × String)) :
    List (String × String) :=
  overrides.foldl (fun d p => dictSet d p.1 p.2) base

/-- The ALIASES table of install.py: per environment variable, the value
aliases. Only IJAVA_TIMEOUT has an alias: NO_TIMEOUT maps to "-1". -/
def ALIASES : List (String × List (String × String)) :=
  [("IJAVA_TIMEOUT", [("NO_TIMEOUT", "-1")])]

/-- The NAME_MAP table of install.py: flag name to environment-variable
name. The only entry maps the timeout flag to IJAVA_TIMEOUT. -/
def NAME_MAP : List (String × String) :=
  [("timeout", "IJAVA_TIMEOUT")]

/-- Models type_assertion(name, str) applied to a value: look the flag
name up in NAME_MAP (none models the KeyError on an unmapped name), fetch
the alias table for the environment variable, and resolve the value
through the aliases, defaulting to the value itself. The type check
type_fn is str, which accepts every string, so it adds nothing. -/
def type_assertion (name : String) (value : String) : Option String :=
  (alistGet NAME_MAP name).map (fun env =>
    let aliases := (alistGet ALIASES env).getD []
    (alistGet aliases value).getD value)

/-- Models one EnvVar action call for a flag with no list separator
(the timeout flag configures none): store the already-resolved value in
the env dict under the mapped environment-variable name. -/
def envvar_call (envState : List (String × String)) (name : String) (value : String) :
    Option (List (String × String)) :=
  (alistGet NAME_MAP name).map (fun env_var => dictSet envState env_var value)

/-- One occurrence of the timeout flag: the argparse type function
resolves the alias, then the EnvVar action stores the resolved value. -/
def process_timeout_flag (envState : List (String × String)) (value : String) :
    Option (List (String × String)) :=
  (type_assertion "timeout" value).bind (fun v => envvar_call envState "timeout" v)

/-- The parsed argument namespace after argparse, with the env dict
already materialised (install.py sets it to the empty dict when absent).
The field pfx models args.prefix, whose argparse default is the empty
string; sysPfx models the sys-prefix flag. -/
structure Args where
  user : Bool
  sysPfx : Bool
  pfx : String
  env : List (String × String)
  graalvm : Option String
  native : Option String
deriving DecidableEq, Repr

/-- Number of active install-location modes: user flag set, sys-prefix
flag set, or a non-empty prefix path. -/
def activeModes (a : Args) : Nat :=
  (if a.user then 1 else 0) + (if a.sysPfx then 1 else 0) + (if a.pfx ≠ "" then 1 else 0)

/-- What the argparse mutually exclusive group guarantees on any accepted
argument list: at most one of the three install-location options was
supplied. -/
def mutuallyExclusive (a : Args) : Prop :=
  activeModes a ≤ 1

/-- The user-installation default of install.py: if neither the
sys-prefix flag nor a (truthy, hence non-empty) prefix is set, force the
user flag on. -/
def applyUserDefault (a : Args) : Args :=
  if ¬ a.sysPfx ∧ a.pfx = "" then { a with user := true } else a

/-- The prefix value handed to install_kernel_spec: sys.prefix when the
sys-prefix flag is set, otherwise the prefix argument. -/
def registrarPfx (a : Args) (sysPrefixPath : String) : String :=
  if a.sysPfx then sysPrefixPath else a.pfx

/-- Python truthiness of an optional string: None and the empty string
are falsy. -/
def falsy : Option String → Bool
  | none => true
  | some s => decide (s = "")

/-- Outcome of the GraalVM home resolution: either a resolved path or the
soft exit (exit code and printed guidance). -/
inductive HomeResult where
  | resolved (path : String)
  | earlyExit (exitCode : Int) (message : String)
deriving DecidableEq, Repr

/-- The guidance message printed when no GraalVM home is resolvable. -/
def guidanceMsg : String :=
  "Set GraalVM installation location via --graalvm option, or set GRAALVM_HOME environment variable"

/-- GraalVM home resolution of install.py: take the graalvm argument;
if it is falsy and GRAALVM_HOME is in the OS environment, take that
instead; if the result is still falsy, print guidance and exit, where the
bare exit() terminates the process with status 0. -/
def resolve_graalvm_home (graalvm : Option String) (osEnv : List (String × String)) :
    HomeResult :=
  let h :=
    if falsy graalvm ∧ (alistGet osEnv "GRAALVM_HOME").isSome then
      alistGet osEnv "GRAALVM_HOME"
    else
      graalvm
  if falsy h then HomeResult.earlyExit 0 guidanceMsg
  else HomeResult.resolved (h.getD "")

/-- The kernel descriptor written by the patcher, with the schema fixed
by install.py: argv, display_name, language, interrupt_mode, env. -/
structure KernelJson where
  argv : List String
  display_name : String
  language : String
  interrupt_mode : String
  env : List (String × String)
deriving DecidableEq, Repr

/-- The kernel_json value built by install.py before serialization:
argv depends on whether the native branch ran, display_name is
"GraalVM Native" or "GraalVM", language is always "GraalVM",
interrupt_mode is always "message", and env is the singleton
GRAALVM_HOME mapping with the CLI-derived overrides assigned on top. -/
def kernel_json (nativeActive : Bool) (graalvm_home : String) (install_dest : String)
    (envOverrides : List (String × String)) : KernelJson :=
  { argv :=
      if nativeActive then
        [install_dest ++ "/IGraalVM", "\x7bconnection_file\x7d"]
      else
        [graalvm_home ++ "/bin/java", "-jar", install_dest ++ "/IGraalVM.jar",
         "\x7bconnection_file\x7d"]
    display_name := if nativeActive then "GraalVM Native" else "GraalVM"
    language := "GraalVM"
    interrupt_mode := "message"
    env := dictMerge [("GRAALVM_HOME", graalvm_home)] envOverrides }

/-- Results of the opaque collaborators: the maven build exit code, the
native-image exit code (consulted only when the native branch runs), and
the install destination returned by the kernel-spec manager. -/
structure ExternalResults where
  mvnRet : Int
  nativeRet : Int
  installDest : String
deriving DecidableEq, Repr

/-- Overall outcome of a run: process exit with a code before the
descriptor is written, or a completed install carrying the kernel name
passed to the registrar, the descriptor written, and the destination. -/
inductive Outcome where
  | exited (code : Int)
  | installed (kernelName : String) (desc : KernelJson) (installDest : String)
deriving DecidableEq, Repr

/-- The main flow of install.py after argument parsing: resolve the
GraalVM home (soft exit when absent), run mvn package and propagate a
non-zero exit code, run native-image when the native argument is truthy
and propagate a non-zero exit code, then register under the kernel name
and write the descriptor built by kernel_json at the install
destination. -/
def runInstall (a : Args) (osEnv : List (String × String)) (ext : ExternalResults) :
    Outcome :=
  match resolve_graalvm_home a.graalvm osEnv with
  | HomeResult.earlyExit c _ => Outcome.exited c
  | HomeResult.resolved home =>
    if ext.mvnRet ≠ 0 then Outcome.exited ext.mvnRet
    else if ¬ falsy a.native ∧ ext.nativeRet ≠ 0 then Outcome.exited ext.nativeRet
    else
      Outcome.installed (if ¬ falsy a.native then "GraalVMNative" else "GraalVM")
        (kernel_json (!falsy a.native) home ext.installDest a.env) ext.installDest

/-- Boolean suffix test on strings, via the character lists. -/
def strEndsWith (s t : String) : Bool :=
  t.data.isSuffixOf s.data

/-- Boolean substring test on strings: some tail of the haystack starts
with the needle. -/
def containsStr (hay needle : String) : Bool :=
  hay.data.tails.any (fun t => needle.data.isPrefixOf t)

/-- Scans an argv list for an element equal to "-jar" whose immediate
successor ends with "IGraalVM.jar". -/
def hasJarThenIGraalVMJar : List String → Bool
  | a :: b :: rest =>
    (decide (a = "-jar") && strEndsWith b "IGraalVM.jar") || hasJarThenIGraalVMJar (b :: rest)
  | _ => false

/-- Lowercase hexadecimal digit, as produced by the Python json encoder. -/
def hexDigit (n : Nat) : Char :=
  if n < 10 then Char.ofNat (48 + n) else Char.ofNat (87 + n)

/-- Four lowercase hexadecimal digits for a code unit below 2 ^ 16. -/
def hex4 (n : Nat) : String :=
  String.mk [hexDigit (n / 4096 % 16), hexDigit (n / 256 % 16), hexDigit (n / 16 % 16),
    hexDigit (n % 16)]

/-- Models the character escaping of the Python json encoder with its
default ensure_ascii: quote and backslash get a backslash escape, the
named control characters get their short escapes, printable ASCII is kept
verbatim, and everything else becomes a backslash-u sequence, with a
surrogate pair above the basic plane. -/
def escapeChar (c : Char) : String :=
  if c = '"' then "\\\""
  else if c = '\\' then "\\\\"
  else if c = '\n' then "\\n"
  else if c = '\r' then "\\r"
  else if c = '\t' then "\\t"
  else if c.toNat = 8 then "\\b"
  else if c.toNat = 12 then "\\f"
  else if 32 ≤ c.toNat ∧ c.toNat ≤ 126 then String.singleton c
  else if c.toNat ≤ 65535 then "\\u" ++ hex4 c.toNat
  else
    let n := c.toNat - 65536
    "\\u" ++ hex4 (55296 + n / 1024) ++ "\\u" ++ hex4 (56320 + n % 1024)

/-- Models json.dumps on a single string: the escaped characters between
double quotes. -/
def json_dumps_str (s : String) : String :=
  "\"" ++ String.join (s.data.map escapeChar) ++ "\""

/-- Sorting an association list by key, modelling sort_keys=True of
json.dump for the env object. Insertion sort is stable, matching the
sorted builtin; dict keys are unique so stability is not observable. -/
def sortByKey (e : List (String × String)) : List (String × String) :=
  List.insertionSort (fun a b => a.1 ≤ b.1) e

/-- Serialization of the argv array at nesting depth one with indent 4:
elements on their own lines at eight spaces, closing bracket at four. -/
def dump_argv (items : List String) : String :=
  match items with
  | [] => "[]"
  | _ =>
    "[\n" ++ String.intercalate ",\n" (items.map (fun s => "        " ++ json_dumps_str s)) ++
    "\n    ]"

/-- Serialization of the env object at nesting depth one with indent 4,
keys already sorted by the caller. -/
def dump_env (e : List (String × String)) : String :=
  match e with
  | [] => "\x7b\x7d"
  | _ =>
    "\x7b\n" ++
    String.intercalate ",\n"
      (e.map (fun p => "        " ++ json_dumps_str p.1 ++ ": " ++ json_dumps_str p.2)) ++
    "\n    \x7d"

/-- Models json.dump(kernel_json, file, indent=4, sort_keys=True) for the
fixed five-field schema: the top-level keys appear in their sorted order
argv, display_name, env, interrupt_mode, language, each on its own line
at indent 4, and the env keys are sorted. -/
def json_dump (k : KernelJson) : String :=
  "\x7b\n" ++
  "    " ++ json_dumps_str "argv" ++ ": " ++ dump_argv k.argv ++ ",\n" ++
  "    " ++ json_dumps_str "display_name" ++ ": " ++ json_dumps_str k.display_name ++ ",\n" ++
  "    " ++ json_dumps_str "env" ++ ": " ++ dump_env (sortByKey k.env) ++ ",\n" ++
  "    " ++ json_dumps_str "interrupt_mode" ++ ": " ++ json_dumps_str k.interrupt_mode ++ ",\n" ++
  "    " ++ json_dumps_str "language" ++ ": " ++ json_dumps_str k.language ++ "\n" ++
  "\x7d"

/-- The whole descriptor-patch step: build the descriptor from the native
flag, the resolved home, the install destination and the parsed env
overrides, then serialize it. -/
def patch_descriptor (nativeActive : Bool) (graalvm_home : String) (install_dest : String)
    (envOverrides : List (String × String)) : String :=
  json_dump (kernel_json nativeActive graalvm_home install_dest envOverrides)

instance : IsTotal (String × String) (fun a b => a.1 ≤ b.1) :=
  ⟨fun a b => le_total a.1 b.1⟩

instance : IsTrans (String × String) (fun a b => a.1 ≤ b.1) :=
  ⟨fun _ _ _ h1 h2 => le_trans h1 h2⟩

/-- A string always ends with a literal appended to it. -/
theorem strEndsWith_append_self (s t : String) : strEndsWith (s ++ t) t = true := by
  simp [strEndsWith]

/-- Appending on the left preserves a suffix. -/
theorem strEndsWith_append_of (s t u : String) (h : strEndsWith t u = true) :
    strEndsWith (s ++ t) u = true := by
  simp only [strEndsWith, String.data_append, List.isSuffixOf_iff_suffix] at h ⊢
  exact h.trans (List.suffix_append _ _)

/-- Appending on the left cannot create a suffix shorter than the right
part if the right part does not already end with it. -/
theorem strEndsWith_append_false (s t u : String) (hlen : u.data.length ≤ t.data.length)
    (h : strEndsWith t u = false) : strEndsWith (s ++ t) u = false := by
  rw [Bool.eq_false_iff]
  intro hc
  have hsuf : u.data <:+ s.data ++ t.data := by
    simpa [strEndsWith, String.data_append, List.isSuffixOf_iff_suffix] using hc
  have h2 : u.data <:+ t.data :=
    List.suffix_of_suffix_length_le hsuf (List.suffix_append _ _) hlen
  rw [Bool.eq_false_iff] at h
  apply h
  simpa [strEndsWith, List.isSuffixOf_iff_suffix] using h2

/-- Overwriting a key in place makes the lookup of that key return the
new value, provided the key occurs. -/
theorem alistGet_map_overwrite (d : List (String × String)) (k v : String)
    (h : dictContains d k = true) :
    alistGet (d.map (fun p => if p.1 = k then (k, v) else p)) k = some v := by
  induction d with
  | nil => simp [dictContains] at h
  | cons p rest ih =>
    by_cases hp : p.1 = k
    · simp [alistGet, hp]
    · have h2 : dictContains rest k = true := by
        simpa [dictContains, hp] using h
      simpa [alistGet, hp] using ih h2

/-- Overwriting one key in place leaves the lookup of another key
unchanged. -/
theorem alistGet_map_ne (d : List (String × String)) (k v k2 : String) (hne : k ≠ k2) :
    alistGet (d.map (fun p => if p.1 = k then (k, v) else p)) k2 = alistGet d k2 := by
  induction d with
  | nil => rfl
  | cons p rest ih =>
    by_cases hp : p.1 = k
    · have hp2 : ¬ p.1 = k2 := by rw [hp]; exact hne
      simp [alistGet, hp, hne, hp2, ih]
    · simp [alistGet, hp, ih]

/-- Looking up a key that is absent from the front part finds the value
appended at the back. -/
theorem alistGet_append_single (d : List (String × String)) (k v : String)
    (h : dictContains d k = false) :
    alistGet (d ++ [(k, v)]) k = some v := by
  induction d with
  | nil => simp [alistGet]
  | cons p rest ih =>
    simp only [dictContains, Bool.or_eq_false_iff, decide_eq_false_iff_not] at h
    simp [alistGet, h.1, ih h.2]

/-- Appending a pair for one key leaves the lookup of another key
unchanged. -/
theorem alistGet_append_ne (d : List (String × String)) (k v k2 : String) (hne : k ≠ k2) :
    alistGet (d ++ [(k, v)]) k2 = alistGet d k2 := by
  induction d with
  | nil => simp [alistGet, hne]
  | cons p rest ih =>
    by_cases hp : p.1 = k2 <;> simp [alistGet, hp, ih]

/-- Dict assignment stores the assigned value under the assigned key. -/
theorem alistGet_dictSet_self (d : List (String × String)) (k v : String) :
    alistGet (dictSet d k v) k = some v := by
  unfold dictSet
  by_cases h : dictContains d k = true
  · simpa [h] using alistGet_map_overwrite d k v h
  · have h2 : dictContains d k = false := by simpa using h
    simpa [h2] using alistGet_append_single d k v h2

/-- Dict assignment leaves other keys unchanged. -/
theorem alistGet_dictSet_ne (d : List (String × String)) (k v k2 : String) (hne : k ≠ k2) :
    alistGet (dictSet d k v) k2 = alistGet d k2 := by
  unfold dictSet
  by_cases h : dictContains d k = true
  · simpa [h] using alistGet_map_ne d k v k2 hne
  · have h2 : dictContains d k = false := by simpa using h
    simpa [h2] using alistGet_append_ne d k v k2 hne

/-- Merging overrides none of which carry a given key leaves the lookup
of that key unchanged. -/
theorem dictMerge_not_mem (ovs : List (String × String)) (d : List (String × String))
    (k : String) (h : ∀ p ∈ ovs, p.1 ≠ k) :
    alistGet (dictMerge d ovs) k = alistGet d k := by
  induction ovs generalizing d with
  | nil => rfl
  | cons q rest ih =>
    have hq : q.1 ≠ k := h q (List.mem_cons_self q rest)
    have hrest : ∀ p ∈ rest, p.1 ≠ k := fun p hp => h p (List.mem_cons_of_mem q hp)
    show alistGet (dictMerge (dictSet d q.1 q.2) rest) k = alistGet d k
    rw [ih (dictSet d q.1 q.2) hrest, alistGet_dictSet_ne d q.1 q.2 k hq]

/-- With pairwise distinct keys, every merged override is found with
exactly its value, overwriting any colliding base entry. -/
theorem dictMerge_mem (ovs : List (String × String)) (d : List (String × String))
    (hnd : (ovs.map Prod.fst).Nodup) (p : String × String) (hp : p ∈ ovs) :
    alistGet (dictMerge d ovs) p.1 = some p.2 := by
  induction ovs generalizing d with
  | nil => cases hp
  | cons q rest ih =>
    rw [List.map_cons, List.nodup_cons] at hnd
    obtain ⟨hq, hrest⟩ := hnd
    rcases List.mem_cons.mp hp with h1 | h2
    · subst h1
      show alistGet (dictMerge (dictSet d p.1 p.2) rest) p.1 = some p.2
      have hnm : ∀ r ∈ rest, r.1 ≠ p.1 := by
        intro r hr heq
        apply hq
        rw [← heq]
        exact List.mem_map_of_mem Prod.fst hr
      rw [dictMerge_not_mem rest _ p.1 hnm, alistGet_dictSet_self]
    · show alistGet (dictMerge (dictSet d q.1 q.2) rest) p.1 = some p.2
      exact ih (dictSet d q.1 q.2) hrest h2

/-- The interrupt_mode field of the built descriptor is the constant
"message", independent of every argument. -/
theorem kernel_json_interrupt_mode (nativeActive : Bool) (home dest : String)
    (ovs : List (String × String)) :
    (kernel_json nativeActive home dest ovs).interrupt_mode = "message" := rfl

/-- A sample descriptor: the non-native install with home /opt/gvm,
destination /dest and the resolved NO_TIMEOUT override. -/
def sampleDesc : KernelJson :=
  kernel_json false "/opt/gvm" "/dest" [("IJAVA_TIMEOUT", "-1")]

/-- Claim C3: for every env state and every string VALUE passed to the
timeout flag, processing succeeds and stores, under the mapped
environment-variable key IJAVA_TIMEOUT, the alias target "-1" when VALUE
is the sentinel NO_TIMEOUT, and VALUE unchanged otherwise. -/
theorem claim_C3_timeout_alias_resolution :
    ∀ (envState : List (String × String)) (value : String),
    ∃ env2, process_timeout_flag envState value = some env2 ∧
      alistGet env2 "IJAVA_TIMEOUT" =
        some (if value = "NO_TIMEOUT" then "-1" else value) := by
  intro envState value
  by_cases hv : value = "NO_TIMEOUT"
  · subst hv
    refine ⟨dictSet envState "IJAVA_TIMEOUT" "-1", ?_, ?_⟩
    · simp [process_timeout_flag, type_assertion, envvar_call, NAME_MAP, ALIASES, alistGet]
    · simp [alistGet_dictSet_self]
  · refine ⟨dictSet envState "IJAVA_TIMEOUT" value, ?_, ?_⟩
    · have hv2 : ¬ ("NO_TIMEOUT" = value) := fun h => hv h.symm
      simp [process_timeout_flag, type_assertion, envvar_call, NAME_MAP, ALIASES, alistGet, hv2]
    · simp [hv, alistGet_dictSet_self]

/-- Claim C4: on every argument list the argparse group accepts (at most
one install-location option supplied), exactly one install-location mode
is active after the user default is applied, and supplying none of the
three options yields user mode. -/
theorem claim_C4_exactly_one_mode (a : Args) (h : mutuallyExclusive a) :
    activeModes (applyUserDefault a) = 1 ∧
    (a.user = false → a.sysPfx = false → a.pfx = "" → (applyUserDefault a).user = true) := by
  unfold mutuallyExclusive activeModes at h
  constructor
  · unfold applyUserDefault activeModes
    by_cases hs : a.sysPfx = true <;> by_cases hp : a.pfx = "" <;>
      by_cases hu : a.user = true <;> simp [hs, hp, hu] at h ⊢
  · intro _ h2 h3
    simp [applyUserDefault, h2, h3]

/-- Witness for C4 at the empty argument list. -/
theorem claim_C4_exactly_one_mode_witness :
    mutuallyExclusive (Args.mk false false "" [] none none) ∧
    (activeModes (applyUserDefault (Args.mk false false "" [] none none)) = 1 ∧
      ((Args.mk false false "" [] none none).user = false →
        (Args.mk false false "" [] none none).sysPfx = false →
        (Args.mk false false "" [] none none).pfx = "" →
        (applyUserDefault (Args.mk false false "" [] none none)).user = true)) :=
  ⟨(by decide : activeModes (Args.mk false false "" [] none none) ≤ 1),
   claim_C4_exactly_one_mode (Args.mk false false "" [] none none)
     (by decide : activeModes (Args.mk false false "" [] none none) ≤ 1)⟩

/-- Claim C5: when the graalvm argument is absent or empty and
GRAALVM_HOME is not in the OS environment, resolution ends in the soft
exit with status 0 and the guidance message, and the whole run exits with
status 0. -/
theorem claim_C5_missing_home_soft_exit (a : Args) (osEnv : List (String × String))
    (ext : ExternalResults) (hf : falsy a.graalvm = true)
    (he : alistGet osEnv "GRAALVM_HOME" = none) :
    resolve_graalvm_home a.graalvm osEnv = HomeResult.earlyExit 0 guidanceMsg ∧
    runInstall a osEnv ext = Outcome.exited 0 := by
  have h1 : resolve_graalvm_home a.graalvm osEnv = HomeResult.earlyExit 0 guidanceMsg := by
    simp [resolve_graalvm_home, he, hf]
  exact ⟨h1, by simp [runInstall, h1]⟩

/-- Witness for C5: no graalvm flag, empty OS environment. -/
theorem claim_C5_missing_home_soft_exit_witness :
    resolve_graalvm_home (Args.mk true false "" [] none none).graalvm [] =
      HomeResult.earlyExit 0 guidanceMsg ∧
    runInstall (Args.mk true false "" [] none none) [] (ExternalResults.mk 0 0 "") =
      Outcome.exited 0 :=
  claim_C5_missing_home_soft_exit (Args.mk true false "" [] none none) []
    (ExternalResults.mk 0 0 "") (by decide) rfl

/-- Claim C6: once the home is resolved, a non-zero maven exit code makes
the run exit with exactly that code before anything else, and with a
successful build and a truthy native argument, a non-zero native-image
exit code makes the run exit with exactly that code; no descriptor is
written in either case. -/
theorem claim_C6_subprocess_exit_propagation (a : Args) (osEnv : List (String × String))
    (ext : ExternalResults) (home : String)
    (hres : resolve_graalvm_home a.graalvm osEnv = HomeResult.resolved home) :
    (ext.mvnRet ≠ 0 → runInstall a osEnv ext = Outcome.exited ext.mvnRet) ∧
    (ext.mvnRet = 0 → falsy a.native = false → ext.nativeRet ≠ 0 →
      runInstall a osEnv ext = Outcome.exited ext.nativeRet) := by
  constructor
  · intro hm
    simp [runInstall, hres, hm]
  · intro hm hn hr
    simp [runInstall, hres, hm, hn, hr]

/-- Witness for C6: a maven failure with exit code 3 is propagated. -/
theorem claim_C6_subprocess_exit_propagation_witness :
    runInstall (Args.mk true false "" [] (some "/g") none) [] (ExternalResults.mk 3 0 "/d") =
      Outcome.exited 3 :=
  (claim_C6_subprocess_exit_propagation (Args.mk true false "" [] (some "/g") none) []
    (ExternalResults.mk 3 0 "/d") "/g" (by decide)).1 (by decide)

/-- Claim C7: the descriptor env of every built descriptor maps
GRAALVM_HOME to the resolved home whenever no CLI override carries that
key (the only CLI key is IJAVA_TIMEOUT), and every CLI-derived override
is present with its resolved value, the merge overwriting any colliding
base key. -/
theorem claim_C7_env_merge (nativeActive : Bool) (home dest : String)
    (ovs : List (String × String)) :
    ((∀ p ∈ ovs, p.1 ≠ "GRAALVM_HOME") →
      alistGet (kernel_json nativeActive home dest ovs).env "GRAALVM_HOME" = some home) ∧
    ((ovs.map Prod.fst).Nodup →
      ∀ p ∈ ovs, alistGet (kernel_json nativeActive home dest ovs).env p.1 = some p.2) := by
  constructor
  · intro h
    show alistGet (dictMerge [("GRAALVM_HOME", home)] ovs) "GRAALVM_HOME" = some home
    rw [dictMerge_not_mem ovs _ _ h]
    simp [alistGet]
  · intro hnd p hp
    show alistGet (dictMerge [("GRAALVM_HOME", home)] ovs) p.1 = some p.2
    exact dictMerge_mem ovs _ hnd p hp

/-- Witness for C7 with the resolved NO_TIMEOUT override. -/
theorem claim_C7_env_merge_witness :
    alistGet (kernel_json false "/opt/gvm" "/dest" [("IJAVA_TIMEOUT", "-1")]).env
      "GRAALVM_HOME" = some "/opt/gvm" ∧
    alistGet (kernel_json false "/opt/gvm" "/dest" [("IJAVA_TIMEOUT", "-1")]).env
      "IJAVA_TIMEOUT" = some "-1" :=
  ⟨(claim_C7_env_merge false "/opt/gvm" "/dest" [("IJAVA_TIMEOUT", "-1")]).1 (by decide),
   (claim_C7_env_merge false "/opt/gvm" "/dest" [("IJAVA_TIMEOUT", "-1")]).2 (by decide)
     ("IJAVA_TIMEOUT", "-1") (by decide)⟩

/-- Claim C8: the descriptor-patch serialization is deterministic: equal
inputs give byte-identical text, and the env keys are emitted in sorted
order (the top-level keys are emitted in the fixed sorted order argv,
display_name, env, interrupt_mode, language with indent 4 by
construction of json_dump). -/
theorem claim_C8_dump_deterministic (k1 k2 : KernelJson) (h : k1 = k2) :
    json_dump k1 = json_dump k2 ∧
    List.Sorted (fun x y : String => x ≤ y) ((sortByKey k1.env).map Prod.fst) := by
  subst h
  refine ⟨rfl, ?_⟩
  have hs : List.Sorted (fun a b : String × String => a.1 ≤ b.1) (sortByKey k1.env) :=
    List.sorted_insertionSort _ k1.env
  exact List.Pairwise.map Prod.fst (fun a b hab => hab) hs

/-- Witness for C8 at the sample descriptor. -/
theorem claim_C8_dump_deterministic_witness :
    json_dump sampleDesc = json_dump sampleDesc ∧
    List.Sorted (fun x y : String => x ≤ y) ((sortByKey sampleDesc.env).map Prod.fst) :=
  claim_C8_dump_deterministic sampleDesc sampleDesc rfl

/-- Claim C9: every run that completes and writes a descriptor writes it
with interrupt_mode equal to "message", whatever the flags were. -/
theorem claim_C9_interrupt_mode_constant (a : Args) (osEnv : List (String × String))
    (ext : ExternalResults) (name : String) (desc : KernelJson) (dest : String)
    (h : runInstall a osEnv ext = Outcome.installed name desc dest) :
    desc.interrupt_mode = "message" := by
  unfold runInstall at h
  split at h
  · exact absurd h (by simp)
  · split at h
    · exact absurd h (by simp)
    · split at h
      · exact absurd h (by simp)
      · injection h with h1 h2 h3
        subst h2
        exact kernel_json_interrupt_mode _ _ _ _

/-- Witness for C9 at a concrete successful non-native run. -/
theorem claim_C9_interrupt_mode_constant_witness :
    (kernel_json false "/g" "/d" []).interrupt_mode = "message" :=
  claim_C9_interrupt_mode_constant (Args.mk true false "" [] (some "/g") none) []
    (ExternalResults.mk 0 0 "/d") "GraalVM" (kernel_json false "/g" "/d" []) "/d" (by decide)

/-- Claim C1 counterexample: on the input timeout NO_TIMEOUT with
graalvm /opt/gvm and no native flag, the timeout flag stores its resolved
value under IJAVA_TIMEOUT, and the descriptor env at the concrete install
destination /dest contains no key IGRAALVM_TIMEOUT, refuting the claimed
env mapping. -/
theorem claim_C1_example_counterexample :
    process_timeout_flag [] "NO_TIMEOUT" = some [("IJAVA_TIMEOUT", "-1")] ∧
    (kernel_json false "/opt/gvm" "/dest" [("IJAVA_TIMEOUT", "-1")]).env =
      [("GRAALVM_HOME", "/opt/gvm"), ("IJAVA_TIMEOUT", "-1")] ∧
    alistGet (kernel_json false "/opt/gvm" "/dest" [("IJAVA_TIMEOUT", "-1")]).env
      "IGRAALVM_TIMEOUT" = none := by
  decide

/-- Claim C1 as amended: for the input timeout NO_TIMEOUT with graalvm
/opt/gvm and no native flag, the run installs with env mapping
GRAALVM_HOME to /opt/gvm and IJAVA_TIMEOUT (not IGRAALVM_TIMEOUT) to
"-1", and argv equal to the java launch command at the install
destination returned by the registrar. -/
theorem claim_C1_example_amended (dest : String) (osEnv : List (String × String)) :
    process_timeout_flag [] "NO_TIMEOUT" = some [("IJAVA_TIMEOUT", "-1")] ∧
    runInstall (Args.mk true false "" [("IJAVA_TIMEOUT", "-1")] (some "/opt/gvm") none) osEnv
      (ExternalResults.mk 0 0 dest) =
      Outcome.installed "GraalVM"
        (KernelJson.mk
          ["/opt/gvm/bin/java", "-jar", dest ++ "/IGraalVM.jar", "\x7bconnection_file\x7d"]
          "GraalVM" "GraalVM" "message"
          [("GRAALVM_HOME", "/opt/gvm"), ("IJAVA_TIMEOUT", "-1")])
        dest := by
  constructor
  · decide
  · have hres : resolve_graalvm_home (some "/opt/gvm") osEnv = HomeResult.resolved "/opt/gvm" := by
      simp [resolve_graalvm_home, falsy]
    simp [runInstall, hres, falsy, kernel_json, dictMerge, dictSet, dictContains, alistGet,
      List.foldl]

/-- Claim C2 counterexample: in a native run the language field is the
constant "GraalVM", which does not contain "Native", refuting the claim
that both display_name and language contain "Native". -/
theorem claim_C2_native_identity_counterexample :
    (kernel_json true "/gvm" "/dest" []).language = "GraalVM" ∧
    containsStr (kernel_json true "/gvm" "/dest" []).language "Native" = false ∧
    containsStr (kernel_json true "/gvm" "/dest" []).display_name "Native" = true := by
  decide

/-- Claim C2 as amended: in every native run argv[0] is the install
destination joined with IGraalVM, ending in IGraalVM and not in .jar,
display_name is "GraalVM Native" and contains "Native", while language is
always "GraalVM" and does not contain "Native"; in every non-native run
argv starts with a path ending in /bin/java and contains "-jar" followed
by a path ending in IGraalVM.jar. -/
theorem claim_C2_native_identity_amended (home dest : String)
    (ovs : List (String × String)) :
    (kernel_json true home dest ovs).argv.headD "" = dest ++ "/IGraalVM" ∧
    strEndsWith ((kernel_json true home dest ovs).argv.headD "") "IGraalVM" = true ∧
    strEndsWith ((kernel_json true home dest ovs).argv.headD "") ".jar" = false ∧
    (kernel_json true home dest ovs).display_name = "GraalVM Native" ∧
    containsStr (kernel_json true home dest ovs).display_name "Native" = true ∧
    (kernel_json true home dest ovs).language = "GraalVM" ∧
    containsStr (kernel_json true home dest ovs).language "Native" = false ∧
    strEndsWith ((kernel_json false home dest ovs).argv.headD "") "/bin/java" = true ∧
    hasJarThenIGraalVMJar (kernel_json false home dest ovs).argv = true := by
  refine ⟨rfl, ?_, ?_, rfl, ?_, rfl, ?_, ?_, ?_⟩
  · show strEndsWith (dest ++ "/IGraalVM") "IGraalVM" = true
    exact strEndsWith_append_of dest "/IGraalVM" "IGraalVM" (by decide)
  · show strEndsWith (dest ++ "/IGraalVM") ".jar" = false
    exact strEndsWith_append_false dest "/IGraalVM" ".jar" (by decide) (by decide)
  · show containsStr "GraalVM Native" "Native" = true
    decide
  · show containsStr "GraalVM" "Native" = false
    decide
  · show strEndsWith (home ++ "/bin/java") "/bin/java" = true
    exact strEndsWith_append_self home "/bin/java"
  · show hasJarThenIGraalVMJar
      [home ++ "/bin/java", "-jar", dest ++ "/IGraalVM.jar", "\x7bconnection_file\x7d"] = true
    have h1 : strEndsWith (dest ++ "/IGraalVM.jar") "IGraalVM.jar" = true :=
      strEndsWith_append_of dest "/IGraalVM.jar" "IGraalVM.jar" (by decide)
    simp only [hasJarThenIGraalVMJar, h1]
    simp

/-- Claim C10: the parsed namespace for the option prefix with the empty
string is the very namespace produced when no install-location option is
supplied; the user default then turns the user flag on, exactly one mode
is active, and the prefix value handed to the registrar is the empty
string. -/
theorem claim_C10_empty_prefix_is_user_mode (envd : List (String × String))
    (g n : Option String) (sysPrefixPath : String) :
    applyUserDefault (Args.mk false false "" envd g n) = Args.mk true false "" envd g n ∧
    (applyUserDefault (Args.mk false false "" envd g n)).user = true ∧
    activeModes (applyUserDefault (Args.mk false false "" envd g n)) = 1 ∧
    registrarPfx (applyUserDefault (Args.mk false false "" envd g n)) sysPrefixPath = "" := by
  refine ⟨?_, ?_, ?_, ?_⟩ <;> simp [applyUserDefault, activeModes, registrarPfx]

end GraalVMInstall
